import Mathlib

/-!
Verification of the `image_similarity_scores` package
(`backend/image_similarity_scores/{config,feature_extractors,similarity_calculator,comparison_analyzer}.py`).

Shallow embedding conventions:
* Python floats are modelled as exact rationals (`ℚ`); every constant in the
  source is a decimal literal that `ℚ` represents exactly.
* Calls into OpenCV / NumPy numeric kernels (`cv2.compareHist`,
  `cv2.matchTemplate`, `np.linalg.norm`, the SIFT matchers) are modelled as
  oracle inputs: the surrounding Python control flow is translated exactly and
  the kernel results appear as parameters.  Mathematically guaranteed ranges of
  those kernels (Pearson correlation and normalized cross-correlation are at
  most 1, Euclidean norms are nonnegative, an edge-pixel density is a fraction
  in [0,1]) appear as hypotheses where a theorem needs them.
* A `try/except` block that swallows an exception from such a kernel is
  modelled by an `Option` input: `none` means the kernel raised.
* `raise ValueError` at construction time is modelled with `Except`.
* The file system seen by `os.path.exists` is an oracle `String → Bool`.
-/

/-- From `config.py`, `SimilarityConfig`: all tunables with their source defaults. -/
structure SimilarityConfig where
  RESIZE_DIMENSIONS : Nat × Nat := (400, 400)
  SIFT_N_FEATURES : Nat := 1000
  SIFT_LOWE_RATIO_FLANN : ℚ := 0.65
  SIFT_LOWE_RATIO_BF : ℚ := 0.6
  CANNY_LOWER_FACTOR : ℚ := 0.6
  CANNY_UPPER_FACTOR : ℚ := 1.4
  COLOR_WEIGHT : ℚ := 0.50
  SIFT_WEIGHT : ℚ := 0.15
  SSIM_WEIGHT : ℚ := 0.25
  EDGE_WEIGHT : ℚ := 0.10
  SHAPE_WEIGHT : ℚ := 0.00
  DEFAULT_MATCH_THRESHOLD : ℚ := 0.6
  HIGH_CONFIDENCE_THRESHOLD : ℚ := 0.75
  MEDIUM_CONFIDENCE_THRESHOLD : ℚ := 0.45
  MAX_POSSIBLE_DISTANCE_FACTOR : ℚ := 255.0
  deriving DecidableEq

/-- The two `ValueError`s `SimilarityConfig.__post_init__` can raise. -/
inductive ConfigError where
  | weightSum
  | matchThreshold
  deriving DecidableEq

/-- The sum of the five weights, as computed in `__post_init__`. -/
def totalWeight (c : SimilarityConfig) : ℚ :=
  c.COLOR_WEIGHT + c.SIFT_WEIGHT + c.SSIM_WEIGHT + c.EDGE_WEIGHT + c.SHAPE_WEIGHT

/-- From `config.py`, `SimilarityConfig.__post_init__`: validation run at
construction.  Returns the config unchanged, or the first `ValueError` hit. -/
def postInit (c : SimilarityConfig) : Except ConfigError SimilarityConfig :=
  if ¬ |totalWeight c - 1.0| < 0.001 then
    Except.error ConfigError.weightSum
  else if ¬ (0.0 ≤ c.DEFAULT_MATCH_THRESHOLD ∧ c.DEFAULT_MATCH_THRESHOLD ≤ 1.0) then
    Except.error ConfigError.matchThreshold
  else
    Except.ok c

/-- From `config.py`, `DEFAULT_CONFIG = SimilarityConfig()`. -/
def DEFAULT_CONFIG : SimilarityConfig := {}

/-- From `config.py`, `SIMILARITY_INTERPRETATIONS` (insertion order preserved,
as Python dict iteration is). -/
def SIMILARITY_INTERPRETATIONS : List (String × ℚ × ℚ) :=
  [("Very High", 0.75, 1.0),
   ("High", 0.6, 0.75),
   ("Medium", 0.4, 0.6),
   ("Low", 0.25, 0.4),
   ("Very Low", 0.0, 0.25)]

/-- The lookup loop of `get_similarity_interpretation`: first band with
`min_score <= score < max_score` wins, else the fallback. -/
def interpLookup : List (String × ℚ × ℚ) → ℚ → String
  | [], _ => "Very Low"
  | (interpretation, min_score, max_score) :: rest, score =>
      if min_score ≤ score ∧ score < max_score then interpretation
      else interpLookup rest score

/-- From `config.py`, `get_similarity_interpretation`. -/
def get_similarity_interpretation (score : ℚ) : String :=
  interpLookup SIMILARITY_INTERPRETATIONS score

/-- From `config.py`, `get_confidence_level`.  Note that the source reads the
module-level `DEFAULT_CONFIG`, not any injected config. -/
def get_confidence_level (score : ℚ) : String :=
  if score ≥ DEFAULT_CONFIG.HIGH_CONFIDENCE_THRESHOLD then "High"
  else if score ≥ DEFAULT_CONFIG.MEDIUM_CONFIDENCE_THRESHOLD then "Medium"
  else "Low"

/-! ## Feature extractors (`feature_extractors.py`)

Only the `calculate_similarity` methods are embedded: the `extract_features`
methods are pure OpenCV pipelines whose outputs (histograms, descriptors,
edge maps, Hu moments) enter the similarity methods as data. -/

/-- A histogram as produced by `cv2.calcHist`: a vector of bin counts. -/
def Hist : Type := List ℚ

instance : Inhabited Hist := ⟨([] : List ℚ)⟩

/-- Largest element of a list, seeded with its head (Python `max(list)` on a
nonempty list); `0` on `[]`, where the source never calls it. -/
def maxL : List ℚ → ℚ
  | [] => 0
  | x :: xs => xs.foldl max x

/-- Smallest element of a list, seeded with its head (the `min_dist` loop in
SIFT strategy 3 starts from `float('inf')`); `0` on `[]`. -/
def minL : List ℚ → ℚ
  | [] => 0
  | x :: xs => xs.foldl min x

/-- From `feature_extractors.py`, `SIFTExtractor._apply_lowe_ratio_test`: keep `m`
from each 2-element match pair with `m.distance < ratio * n.distance`.  A match
pair is its list of distances. -/
def applyLoweRatioTest (knn_matches : List (List ℚ)) (r : ℚ) : List ℚ :=
  knn_matches.filterMap fun match_pair =>
    match match_pair with
    | [m, n] => if m < r * n then some m else none
    | _ => none

/-- From `feature_extractors.py`, `ColorExtractor.calculate_similarity`.
`compareHist` is the `cv2.compareHist(·, ·, HISTCMP_CORREL)` oracle.
`extract_features` produces six histograms: BGR channels at indices 0–2, HSV
channels at 3–5.  Fewer than 3 histograms would make the BGR loop raise
`IndexError`, which the enclosing `try` turns into `0.0`. -/
def ColorExtractor.calculate_similarity (compareHist : Hist → Hist → ℚ)
    (features1 features2 : List Hist) : ℚ :=
  if features1.length < 3 ∨ features2.length < 3 then 0.0
  else
    let bgr_correlations :=
      (List.range 3).map fun i => compareHist (features1.getD i default) (features2.getD i default)
    let hsv_correlations :=
      (List.range' 3 3).filterMap fun i =>
        if i < features1.length ∧ i < features2.length then
          some (compareHist (features1.getD i default) (features2.getD i default))
        else none
    let final_score :=
      if hsv_correlations ≠ [] ∧ bgr_correlations ≠ [] then
        min (maxL hsv_correlations) (maxL bgr_correlations)
      else if hsv_correlations ≠ [] then maxL hsv_correlations
      else if bgr_correlations ≠ [] then maxL bgr_correlations
      else 0.0
    max 0.0 final_score

/-- From `feature_extractors.py`, `SIFTExtractor.calculate_similarity`.
`kp1`, `kp2` are the keypoint counts; `des1`, `des2` the descriptor lists
(`none` = `detectAndCompute` returned no descriptors).  `flann_matches` and
`bf_matches` are the knn-matcher oracles (`none` = the matcher raised, which
the per-strategy `try` swallows).  `dist v1 v2` is the
`np.linalg.norm(d1 - d2)` oracle, and `max_possible_distance` stands for
`sqrt(len(des1[0]) * MAX_POSSIBLE_DISTANCE_FACTOR**2)`, supplied as a
parameter because square roots leave ℚ. -/
def SIFTExtractor.calculate_similarity (c : SimilarityConfig)
    (kp1 kp2 : Nat) (des1 des2 : Option (List (List ℚ)))
    (flann_matches bf_matches : Option (List (List ℚ)))
    (dist : List ℚ → List ℚ → ℚ) (max_possible_distance : ℚ) : ℚ :=
  match des1, des2 with
  | some d1, some d2 =>
    if d1.length < 2 ∨ d2.length < 2 then 0.0
    else
      let strat1 :=
        match flann_matches with
        | some knn_matches =>
            let good_matches := applyLoweRatioTest knn_matches c.SIFT_LOWE_RATIO_FLANN
            if 0 < good_matches.length then
              [min 1.0 ((good_matches.length : ℚ) / (Nat.min kp1 kp2 : ℚ))]
            else []
        | none => []
      let strat2 :=
        match bf_matches with
        | some knn_matches =>
            let good_matches := applyLoweRatioTest knn_matches c.SIFT_LOWE_RATIO_BF
            if 0 < good_matches.length then
              [min 1.0 ((good_matches.length : ℚ) / (Nat.min kp1 kp2 : ℚ))]
            else []
        | none => []
      let strat3 :=
        if 0 < d1.length ∧ 0 < d2.length then
          let distances := d1.map fun v1 => minL (d2.map fun v2 => dist v1 v2)
          let avg_distance := distances.sum / (distances.length : ℚ)
          [max 0.0 (1.0 - avg_distance / max_possible_distance)]
        else []
      let similarities := strat1 ++ strat2 ++ strat3
      if similarities ≠ [] then maxL similarities else 0.0
  | _, _ => 0.0

/-- From `feature_extractors.py`, `SSIMExtractor.calculate_similarity`:
`correlation` is the `cv2.matchTemplate(·, ·, TM_CCOEFF_NORMED)[0][0]` oracle
(`none` = the block raised and the `except` returned `0.0`). -/
def SSIMExtractor.calculate_similarity (correlation : Option ℚ) : ℚ :=
  match correlation with
  | some corr => max 0.0 corr
  | none => 0.0

/-- From `feature_extractors.py`, `EdgeExtractor.calculate_similarity`: three
independently-tried methods; `none` = that method raised and was skipped.
`density1`/`density2` are the edge-pixel fractions `np.sum(e > 0) / e.size`. -/
def EdgeExtractor.calculate_similarity (tm_correlation hist_correlation : Option ℚ)
    (density1 density2 : Option ℚ) : ℚ :=
  let method1 := match tm_correlation with
    | some correlation => [max 0.0 correlation]
    | none => []
  let method2 := match hist_correlation with
    | some correlation => [max 0.0 correlation]
    | none => []
  let method3 := match density1, density2 with
    | some d1, some d2 => [max 0.0 (1.0 - |d1 - d2|)]
    | _, _ => []
  let similarities := method1 ++ method2 ++ method3
  if similarities ≠ [] then maxL similarities else 0.0

/-- From `feature_extractors.py`, `ShapeExtractor.calculate_similarity`:
`features1`, `features2` are the log-scaled Hu-moment vectors (empty when
`extract_features` found no usable contour); `distance` is the
`np.linalg.norm(features1 - features2)` oracle. -/
def ShapeExtractor.calculate_similarity (features1 features2 : List ℚ)
    (distance : ℚ) : ℚ :=
  if features1.length = 0 ∨ features2.length = 0 then 0.0
  else min 1.0 (1.0 / (1.0 + distance))

/-! ## Similarity calculator (`similarity_calculator.py`) -/

/-- All oracle data a pair of loaded images induces for
`_calculate_all_similarities`: the extractor outputs and the numeric kernels
applied to them. -/
structure MetricEnv where
  compareHist : Hist → Hist → ℚ
  color_features1 : List Hist
  color_features2 : List Hist
  sift_kp1 : Nat
  sift_kp2 : Nat
  sift_des1 : Option (List (List ℚ))
  sift_des2 : Option (List (List ℚ))
  flann_matches : Option (List (List ℚ))
  bf_matches : Option (List (List ℚ))
  sift_dist : List ℚ → List ℚ → ℚ
  sift_max_possible_distance : ℚ
  ssim_correlation : Option ℚ
  edge_tm_correlation : Option ℚ
  edge_hist_correlation : Option ℚ
  edge_density1 : Option ℚ
  edge_density2 : Option ℚ
  shape_features1 : List ℚ
  shape_features2 : List ℚ
  shape_distance : ℚ

/-- Mathematically guaranteed ranges of the numeric kernels: a Pearson
histogram correlation and a normalized cross-correlation are at most 1,
Euclidean norms are nonnegative, and an edge density is a pixel fraction
in `[0, 1]`. -/
def MetricEnv.WellFormed (e : MetricEnv) : Prop :=
  (∀ h1 h2, e.compareHist h1 h2 ≤ 1) ∧
  (∀ v1 v2, 0 ≤ e.sift_dist v1 v2) ∧
  0 ≤ e.sift_max_possible_distance ∧
  (∀ x, e.ssim_correlation = some x → x ≤ 1) ∧
  (∀ x, e.edge_tm_correlation = some x → x ≤ 1) ∧
  (∀ x, e.edge_hist_correlation = some x → x ≤ 1) ∧
  (∀ x, e.edge_density1 = some x → 0 ≤ x ∧ x ≤ 1) ∧
  (∀ x, e.edge_density2 = some x → 0 ≤ x ∧ x ≤ 1) ∧
  0 ≤ e.shape_distance

/-- A degenerate environment: every extractor failed or found nothing.  Used
to instantiate universally quantified statements at a concrete input. -/
def trivialMetricEnv : MetricEnv :=
  { compareHist := fun _ _ => 0,
    color_features1 := [], color_features2 := [],
    sift_kp1 := 0, sift_kp2 := 0,
    sift_des1 := none, sift_des2 := none,
    flann_matches := none, bf_matches := none,
    sift_dist := fun _ _ => 0, sift_max_possible_distance := 0,
    ssim_correlation := none,
    edge_tm_correlation := none, edge_hist_correlation := none,
    edge_density1 := none, edge_density2 := none,
    shape_features1 := [], shape_features2 := [], shape_distance := 0 }

/-- From `similarity_calculator.py`,
`ImageSimilarityCalculator._calculate_all_similarities`: the five
`(name, score, weight)` triples, in source order. -/
def calculate_all_similarities (c : SimilarityConfig) (e : MetricEnv) :
    List (String × ℚ × ℚ) :=
  [("Color",
    ColorExtractor.calculate_similarity e.compareHist e.color_features1 e.color_features2,
    c.COLOR_WEIGHT),
   ("SIFT",
    SIFTExtractor.calculate_similarity c e.sift_kp1 e.sift_kp2 e.sift_des1 e.sift_des2
      e.flann_matches e.bf_matches e.sift_dist e.sift_max_possible_distance,
    c.SIFT_WEIGHT),
   ("SSIM",
    SSIMExtractor.calculate_similarity e.ssim_correlation,
    c.SSIM_WEIGHT),
   ("Edge",
    EdgeExtractor.calculate_similarity e.edge_tm_correlation e.edge_hist_correlation
      e.edge_density1 e.edge_density2,
    c.EDGE_WEIGHT),
   ("Shape",
    ShapeExtractor.calculate_similarity e.shape_features1 e.shape_features2 e.shape_distance,
    c.SHAPE_WEIGHT)]

/-- From `similarity_calculator.py`, `ImageSimilarityCalculator.calculate_similarity`.
`loaded = none` models `_load_and_preprocess_images` failing (missing file or
unreadable image: `img1 is None or img2 is None`), which returns `0.0`. -/
def ImageSimilarityCalculator.calculate_similarity (c : SimilarityConfig)
    (loaded : Option MetricEnv) : ℚ :=
  match loaded with
  | none => 0.0
  | some e =>
      let similarities := calculate_all_similarities c e
      let total_score := (similarities.map fun t => t.2.1 * t.2.2).sum
      min 1.0 (max 0.0 total_score)

/-! ## Comparison analyzer (`comparison_analyzer.py`) -/

/-- The `os.path.exists` oracle. -/
structure FileSystem where
  path_exists : String → Bool

/-- The `analysis` sub-dictionary built by `_generate_analysis_insights`. -/
structure AnalysisInsights where
  confidence : String
  interpretation : String
  recommendation : String
  counterfeit_risk : String
  suggested_action : String
  deriving DecidableEq

/-- The successful result dictionary of `compare_images`.  The image-metadata
and detailed-score entries, which no analyzed property mentions, are omitted. -/
structure Report where
  similarity_score : ℚ
  is_match : Bool
  match_status : String
  threshold : ℚ
  analysis : AnalysisInsights
  interpretation : String
  confidence : String
  deriving DecidableEq

/-- A `compare_images` result: either the `{"error": ...}` dictionary or a
full report. -/
inductive CompareResult where
  | error (msg : String)
  | report (r : Report)
  deriving DecidableEq

/-- From `comparison_analyzer.py`, `ComparisonAnalyzer`: its only state is the
injected config (`self.similarity_calculator` carries the same config). -/
structure ComparisonAnalyzer where
  config : SimilarityConfig
  deriving DecidableEq

/-- Python `round(x, 3)`: scale by 1000 and round half to even. -/
def round3 (q : ℚ) : ℚ :=
  let scaled := q * 1000
  let f := ⌊scaled⌋
  let frac := scaled - (f : ℚ)
  let n : ℤ :=
    if frac < 1/2 then f
    else if 1/2 < frac then f + 1
    else if f % 2 = 0 then f else f + 1
  (n : ℚ) / 1000

/-- From `comparison_analyzer.py`, `ComparisonAnalyzer._generate_analysis_insights`.
Note `confidence` comes from the module-level `get_confidence_level`, which
reads `DEFAULT_CONFIG`; only the risk branches read `self.config`. -/
def ComparisonAnalyzer.generate_analysis_insights (c : SimilarityConfig)
    (similarity_score : ℚ) ( is_match : Bool) : AnalysisInsights :=
  let confidence := get_confidence_level similarity_score
  let interpretation := get_similarity_interpretation similarity_score
  if is_match = true ∧ similarity_score ≥ c.HIGH_CONFIDENCE_THRESHOLD then
    { confidence := confidence, interpretation := interpretation,
      recommendation := "Likely same product - High confidence match",
      counterfeit_risk := "Low",
      suggested_action := "Use as reference for authentication" }
  else if is_match = true then
    { confidence := confidence, interpretation := interpretation,
      recommendation := "Similar products - Moderate confidence match",
      counterfeit_risk := "Low to Medium",
      suggested_action := "Compare physical details carefully" }
  else if similarity_score ≥ c.MEDIUM_CONFIDENCE_THRESHOLD then
    { confidence := confidence, interpretation := interpretation,
      recommendation := "Some similarities found - Needs verification",
      counterfeit_risk := "Medium",
      suggested_action := "Check for differences in brand markings, colors, and quality" }
  else
    { confidence := confidence, interpretation := interpretation,
      recommendation := "Different products or poor match",
      counterfeit_risk := "High",
      suggested_action := "Verify with official brand website and check for counterfeits" }

/-- From `comparison_analyzer.py`, `ComparisonAnalyzer.compare_images`.
`similarity` is the value `self.similarity_calculator.calculate_similarity`
returns for this pair.  The method never assigns to `self`, so the analyzer
is returned unchanged as the second component. -/
def ComparisonAnalyzer.compare_images (analyzer : ComparisonAnalyzer)
    (fs : FileSystem) (image_path1 image_path2 : String)
    (threshold : Option ℚ) (similarity : ℚ) : CompareResult × ComparisonAnalyzer :=
  let t := match threshold with
    | none => analyzer.config.DEFAULT_MATCH_THRESHOLD
    | some t => t
  if fs.path_exists image_path1 = false then
    (CompareResult.error ("Image file not found: " ++ image_path1), analyzer)
  else if fs.path_exists image_path2 = false then
    (CompareResult.error ("Image file not found: " ++ image_path2), analyzer)
  else
    let similarity_score := similarity
    let is_match : Bool := decide (similarity_score ≥ t)
    let match_status := if is_match = true then "MATCH" else "NO MATCH"
    let analysis_insights :=
      ComparisonAnalyzer.generate_analysis_insights analyzer.config similarity_score is_match
    (CompareResult.report
      { similarity_score := round3 similarity_score,
        is_match := is_match,
        match_status := match_status,
        threshold := t,
        analysis := analysis_insights,
        interpretation := get_similarity_interpretation similarity_score,
        confidence := get_confidence_level similarity_score },
     analyzer)

/-- The running result dictionary of `batch_compare`. -/
structure BatchResults where
  total_comparisons : Nat
  «matches» : Nat
  no_matches : Nat
  errors : Nat
  comparisons : List (Nat × CompareResult)
  deriving DecidableEq

/-- One iteration of the `batch_compare` loop body at pair index `ip.1`:
classify the comparison result into exactly one counter and append it,
tagged with its `pair_index`. -/
def batchStep (analyzer : ComparisonAnalyzer) (fs : FileSystem)
    (threshold : Option ℚ) (scores : String → String → ℚ)
    (acc : BatchResults) (ip : Nat × String × String) : BatchResults :=
  let comparison_result :=
    (ComparisonAnalyzer.compare_images analyzer fs ip.2.1 ip.2.2 threshold
      (scores ip.2.1 ip.2.2)).1
  match comparison_result with
  | CompareResult.error _ =>
      { acc with errors := acc.errors + 1,
                 comparisons := acc.comparisons ++ [(ip.1, comparison_result)] }
  | CompareResult.report r =>
      if r.is_match = true then
        { acc with «matches» := acc.«matches» + 1,
                   comparisons := acc.comparisons ++ [(ip.1, comparison_result)] }
      else
        { acc with no_matches := acc.no_matches + 1,
                   comparisons := acc.comparisons ++ [(ip.1, comparison_result)] }

/-- From `comparison_analyzer.py`, `ComparisonAnalyzer.batch_compare`.
`scores p1 p2` is the calculator's score for the pair.  The `except` arm of
the loop body is unreachable here: `compare_images` catches its own
exceptions, and unpacking a well-typed pair cannot fail. -/
def ComparisonAnalyzer.batch_compare (analyzer : ComparisonAnalyzer)
    (fs : FileSystem) (image_pairs : List (String × String))
    (threshold : Option ℚ) (scores : String → String → ℚ) : BatchResults :=
  image_pairs.enum.foldl (batchStep analyzer fs threshold scores)
    { total_comparisons := image_pairs.length,
      «matches» := 0, no_matches := 0, errors := 0, comparisons := [] }

/-! ## Helper lemmas -/

lemma foldl_max_le {b : ℚ} : ∀ (l : List ℚ) (a : ℚ), a ≤ b → (∀ x ∈ l, x ≤ b) →
    l.foldl max a ≤ b := by
  intro l
  induction l with
  | nil => intro a ha _; simpa using ha
  | cons x xs ih =>
      intro a ha hx
      simp only [List.foldl_cons]
      exact ih (max a x) (max_le ha (hx x (by simp)))
        (fun y hy => hx y (by simp [hy]))

lemma le_foldl_max : ∀ (l : List ℚ) (a : ℚ), a ≤ l.foldl max a := by
  intro l
  induction l with
  | nil => intro a; simp
  | cons x xs ih =>
      intro a
      simp only [List.foldl_cons]
      exact le_trans (le_max_left a x) (ih (max a x))

lemma maxL_le {b : ℚ} (l : List ℚ) (hb : 0 ≤ b) (h : ∀ x ∈ l, x ≤ b) : maxL l ≤ b := by
  cases l with
  | nil => simpa [maxL] using hb
  | cons x xs => exact foldl_max_le xs x (h x (by simp)) (fun y hy => h y (by simp [hy]))

lemma maxL_nonneg (l : List ℚ) (h : ∀ x ∈ l, 0 ≤ x) : 0 ≤ maxL l := by
  cases l with
  | nil => simp [maxL]
  | cons x xs => exact le_trans (h x (by simp)) (le_foldl_max xs x)

lemma foldl_min_nonneg : ∀ (l : List ℚ) (a : ℚ), 0 ≤ a → (∀ x ∈ l, 0 ≤ x) →
    0 ≤ l.foldl min a := by
  intro l
  induction l with
  | nil => intro a ha _; simpa using ha
  | cons x xs ih =>
      intro a ha hx
      simp only [List.foldl_cons]
      exact ih (min a x) (le_min ha (hx x (by simp)))
        (fun y hy => hx y (by simp [hy]))

lemma minL_nonneg (l : List ℚ) (h : ∀ x ∈ l, 0 ≤ x) : 0 ≤ minL l := by
  cases l with
  | nil => simp [minL]
  | cons x xs => exact foldl_min_nonneg xs x (h x (by simp)) (fun y hy => h y (by simp [hy]))

/-! ## Claims -/

/-- C2 (corrected): the lookup in `get_similarity_interpretation` classifies
`[0.75, 1)` as "Very High", `[0.6, 0.75)` as "High", `[0.4, 0.6)` as "Medium",
`[0.25, 0.4)` as "Low" and `[0, 0.25)` as "Very Low"; every score outside the
half-open union — in particular a score of exactly `1.0` — falls through to
the fallback and is classified "Very Low", not "Very High". -/
theorem claim_C2_interpretation_bands :
    (∀ s : ℚ, get_similarity_interpretation s =
      if 0.75 ≤ s ∧ s < 1.0 then "Very High"
      else if 0.6 ≤ s ∧ s < 0.75 then "High"
      else if 0.4 ≤ s ∧ s < 0.6 then "Medium"
      else if 0.25 ≤ s ∧ s < 0.4 then "Low"
      else if 0.0 ≤ s ∧ s < 0.25 then "Very Low"
      else "Very Low") ∧
    get_similarity_interpretation 1 = "Very Low" := by
  constructor
  · intro s
    simp only [get_similarity_interpretation, SIMILARITY_INTERPRETATIONS, interpLookup]
  · norm_num [get_similarity_interpretation, SIMILARITY_INTERPRETATIONS, interpLookup]

/-- C2 counterexample: at score exactly `1.0` the claim predicts "Very High",
but `get_similarity_interpretation 1.0` is "Very Low" (the "Very High" band
requires `score < 1.0`). -/
theorem claim_C2_counterexample :
    get_similarity_interpretation 1.0 = "Very Low" ∧
    get_similarity_interpretation 1.0 ≠ "Very High" := by
  constructor
  · norm_num [get_similarity_interpretation, SIMILARITY_INTERPRETATIONS, interpLookup]
  · norm_num [get_similarity_interpretation, SIMILARITY_INTERPRETATIONS, interpLookup]
    decide

/-- C3 (confirmed): constructing a `SimilarityConfig` whose five weights sum to
a value differing from 1.0 by at least 0.001 raises the weight-sum
`ValueError` (no config is produced); when the sum is within 0.001 of 1.0,
construction never fails on weight grounds — it succeeds, or fails only on the
match-threshold check. -/
theorem claim_C3_weight_sum_invariant :
    ∀ c : SimilarityConfig,
      (0.001 ≤ |totalWeight c - 1.0| →
        postInit c = Except.error ConfigError.weightSum) ∧
      (|totalWeight c - 1.0| < 0.001 →
        postInit c = Except.ok c ∨
        postInit c = Except.error ConfigError.matchThreshold) := by
  intro c
  constructor
  · intro h
    have h' : ¬ |totalWeight c - 1.0| < 0.001 := not_lt.mpr h
    simp [postInit, h']
  · intro h
    by_cases ht : 0.0 ≤ c.DEFAULT_MATCH_THRESHOLD ∧ c.DEFAULT_MATCH_THRESHOLD ≤ 1.0
    · left; simp [postInit, h, ht]
    · right; simp [postInit, h, ht]

/-- C3 witness: raising `COLOR_WEIGHT` to 0.6 makes the weights sum to 1.1,
which is rejected with the weight-sum error, while the default config (weights
summing to exactly 1.0) is accepted. -/
theorem claim_C3_weight_sum_invariant_witness :
    postInit { DEFAULT_CONFIG with COLOR_WEIGHT := 0.6 } =
      Except.error ConfigError.weightSum ∧
    (postInit DEFAULT_CONFIG = Except.ok DEFAULT_CONFIG ∨
     postInit DEFAULT_CONFIG = Except.error ConfigError.matchThreshold) := by
  constructor
  · exact (claim_C3_weight_sum_invariant _).1
      (le_abs.mpr (Or.inl (by norm_num [totalWeight, DEFAULT_CONFIG])))
  · exact (claim_C3_weight_sum_invariant DEFAULT_CONFIG).2
      (by norm_num [totalWeight, DEFAULT_CONFIG])

/-- C4 counterexample: a config whose `HIGH_CONFIDENCE_THRESHOLD` is 2.0 —
outside `[0, 1]` — is accepted by `__post_init__` without any error, because
only `DEFAULT_MATCH_THRESHOLD` is range-checked. -/
theorem claim_C4_counterexample :
    postInit { DEFAULT_CONFIG with HIGH_CONFIDENCE_THRESHOLD := 2.0 } =
      Except.ok { DEFAULT_CONFIG with HIGH_CONFIDENCE_THRESHOLD := 2.0 } ∧
    ¬ ({ DEFAULT_CONFIG with HIGH_CONFIDENCE_THRESHOLD := 2.0 } :
        SimilarityConfig).HIGH_CONFIDENCE_THRESHOLD ≤ 1.0 := by
  constructor
  · norm_num [postInit, totalWeight, DEFAULT_CONFIG]
  · norm_num [DEFAULT_CONFIG]

/-- C4 (corrected): among the three thresholds only `DEFAULT_MATCH_THRESHOLD`
is range-checked at construction.  For any config passing the weight check,
construction fails with the threshold error exactly when
`DEFAULT_MATCH_THRESHOLD` is outside `[0, 1]`, and succeeds otherwise —
regardless of the values of `HIGH_CONFIDENCE_THRESHOLD` and
`MEDIUM_CONFIDENCE_THRESHOLD`. -/
theorem claim_C4_only_match_threshold_validated :
    ∀ c : SimilarityConfig, |totalWeight c - 1.0| < 0.001 →
      ((0.0 ≤ c.DEFAULT_MATCH_THRESHOLD ∧ c.DEFAULT_MATCH_THRESHOLD ≤ 1.0) →
        postInit c = Except.ok c) ∧
      (¬ (0.0 ≤ c.DEFAULT_MATCH_THRESHOLD ∧ c.DEFAULT_MATCH_THRESHOLD ≤ 1.0) →
        postInit c = Except.error ConfigError.matchThreshold) := by
  intro c h
  constructor
  · intro ht; simp [postInit, h, ht]
  · intro ht; simp [postInit, h, ht]

/-- C4 witness: with default weights, an out-of-range `DEFAULT_MATCH_THRESHOLD`
of 2.0 is rejected with the threshold error, and the default config is
accepted. -/
theorem claim_C4_only_match_threshold_validated_witness :
    postInit { DEFAULT_CONFIG with DEFAULT_MATCH_THRESHOLD := 2.0 } =
      Except.error ConfigError.matchThreshold ∧
    postInit DEFAULT_CONFIG = Except.ok DEFAULT_CONFIG := by
  constructor
  · exact (claim_C4_only_match_threshold_validated _
      (by norm_num [totalWeight, DEFAULT_CONFIG])).2 (by norm_num [DEFAULT_CONFIG])
  · exact (claim_C4_only_match_threshold_validated DEFAULT_CONFIG
      (by norm_num [totalWeight, DEFAULT_CONFIG])).1 (by norm_num [DEFAULT_CONFIG])

/-- Success path of `compare_images`: when both files exist the result is the
full report built from the calculator's (unrounded) score, and the analyzer is
returned unchanged. -/
lemma compare_images_report (analyzer : ComparisonAnalyzer) (fs : FileSystem)
    (p1 p2 : String) (threshold : Option ℚ) (similarity : ℚ)
    (h1 : fs.path_exists p1 = true) (h2 : fs.path_exists p2 = true) :
    ComparisonAnalyzer.compare_images analyzer fs p1 p2 threshold similarity =
      (CompareResult.report
        { similarity_score := round3 similarity,
          is_match := decide (similarity ≥
            threshold.getD analyzer.config.DEFAULT_MATCH_THRESHOLD),
          match_status := if decide (similarity ≥
              threshold.getD analyzer.config.DEFAULT_MATCH_THRESHOLD) = true
            then "MATCH" else "NO MATCH",
          threshold := threshold.getD analyzer.config.DEFAULT_MATCH_THRESHOLD,
          analysis := ComparisonAnalyzer.generate_analysis_insights analyzer.config
            similarity (decide (similarity ≥
              threshold.getD analyzer.config.DEFAULT_MATCH_THRESHOLD)),
          interpretation := get_similarity_interpretation similarity,
          confidence := get_confidence_level similarity },
       analyzer) := by
  cases threshold <;>
    simp [ComparisonAnalyzer.compare_images, h1, h2, Option.getD]

/-- C5 (confirmed): when either image path does not exist, `compare_images`
returns the structured `{"error": ...}` result paired with an unchanged
analyzer state, and the result does not depend on the similarity oracle — no
similarity computation influences it. -/
theorem claim_C5_missing_file_structured_error :
    ∀ (analyzer : ComparisonAnalyzer) (fs : FileSystem) (p1 p2 : String)
      (threshold : Option ℚ) (similarity similarity' : ℚ),
      (fs.path_exists p1 = false ∨ fs.path_exists p2 = false) →
      (∃ msg, ComparisonAnalyzer.compare_images analyzer fs p1 p2 threshold similarity =
          (CompareResult.error msg, analyzer)) ∧
      ComparisonAnalyzer.compare_images analyzer fs p1 p2 threshold similarity =
        ComparisonAnalyzer.compare_images analyzer fs p1 p2 threshold similarity' := by
  intro analyzer fs p1 p2 threshold s s' h
  by_cases h1 : fs.path_exists p1 = false
  · constructor
    · exact ⟨"Image file not found: " ++ p1,
        by simp [ComparisonAnalyzer.compare_images, h1]⟩
    · simp [ComparisonAnalyzer.compare_images, h1]
  · have h2 : fs.path_exists p2 = false := by
      rcases h with h | h
      · exact absurd h h1
      · exact h
    have h1' : fs.path_exists p1 = true := by
      cases hb : fs.path_exists p1
      · exact absurd hb h1
      · rfl
    constructor
    · exact ⟨"Image file not found: " ++ p2,
        by simp [ComparisonAnalyzer.compare_images, h1', h2]⟩
    · simp [ComparisonAnalyzer.compare_images, h1', h2]

/-- C5 witness: with a file system on which no path exists, comparing two
paths yields an error result, an unchanged analyzer, and a result independent
of the oracle score. -/
theorem claim_C5_missing_file_structured_error_witness :
    (∃ msg, ComparisonAnalyzer.compare_images ⟨DEFAULT_CONFIG⟩ ⟨fun _ => false⟩
        "a.jpg" "b.jpg" none 0.9 = (CompareResult.error msg, ⟨DEFAULT_CONFIG⟩)) ∧
    ComparisonAnalyzer.compare_images ⟨DEFAULT_CONFIG⟩ ⟨fun _ => false⟩
        "a.jpg" "b.jpg" none 0.9 =
      ComparisonAnalyzer.compare_images ⟨DEFAULT_CONFIG⟩ ⟨fun _ => false⟩
        "a.jpg" "b.jpg" none 0.1 :=
  claim_C5_missing_file_structured_error ⟨DEFAULT_CONFIG⟩ ⟨fun _ => false⟩
    "a.jpg" "b.jpg" none 0.9 0.1 (Or.inl rfl)

/-- C10 (confirmed): in every successful report, `is_match` is computed from
the unrounded similarity score (`is_match = score ≥ threshold`) while the
reported `similarity_score` is the score rounded to 3 decimal places; at
score 0.5996 with threshold 0.6 this yields `is_match = false` although the
reported `similarity_score` (0.6) is ≥ the reported threshold. -/
theorem claim_C10_match_uses_unrounded_score :
    ∀ (analyzer : ComparisonAnalyzer) (fs : FileSystem) (p1 p2 : String)
      (t similarity : ℚ),
      fs.path_exists p1 = true → fs.path_exists p2 = true →
      ∃ r, (ComparisonAnalyzer.compare_images analyzer fs p1 p2 (some t) similarity).1 =
          CompareResult.report r ∧
        r.is_match = decide (similarity ≥ t) ∧
        r.similarity_score = round3 similarity ∧
        r.threshold = t ∧
        (similarity = 0.5996 → t = 0.6 →
          r.is_match = false ∧ r.similarity_score ≥ r.threshold) := by
  intro analyzer fs p1 p2 t s h1 h2
  refine ⟨_, by rw [compare_images_report analyzer fs p1 p2 (some t) s h1 h2],
    rfl, rfl, rfl, ?_⟩
  intro hs ht
  subst hs; subst ht
  constructor
  · exact decide_eq_false (by norm_num)
  · show round3 0.5996 ≥ (0.6 : ℚ)
    have hfloor : ⌊(0.5996 : ℚ) * 1000⌋ = 599 := by
      rw [Int.floor_eq_iff]
      norm_num
    norm_num [round3, hfloor]

/-- C10 witness: the concrete report of a comparison with score 0.5996 and
threshold 0.6 shows `is_match = false` with a reported score equal to the
reported threshold. -/
theorem claim_C10_match_uses_unrounded_score_witness :
    ∃ r, (ComparisonAnalyzer.compare_images ⟨DEFAULT_CONFIG⟩ ⟨fun _ => true⟩
        "a.jpg" "b.jpg" (some 0.6) 0.5996).1 = CompareResult.report r ∧
      r.is_match = false ∧ r.similarity_score ≥ r.threshold := by
  obtain ⟨r, hr, _, _, _, hconc⟩ :=
    claim_C10_match_uses_unrounded_score ⟨DEFAULT_CONFIG⟩ ⟨fun _ => true⟩
      "a.jpg" "b.jpg" 0.6 0.5996 rfl rfl
  exact ⟨r, hr, (hconc rfl rfl).1, (hconc rfl rfl).2⟩

/-- C7 counterexample: a successful non-matching comparison with unrounded
score 0.42 — which is ≥ 0.4 — is labelled counterfeit risk "High", not
"Medium", because the Medium branch requires the score to reach
`MEDIUM_CONFIDENCE_THRESHOLD` (0.45 by default). -/
theorem claim_C7_counterexample :
    ∃ r, (ComparisonAnalyzer.compare_images ⟨DEFAULT_CONFIG⟩ ⟨fun _ => true⟩
        "a.jpg" "b.jpg" (some 0.6) 0.42).1 = CompareResult.report r ∧
      r.is_match = false ∧
      (0.42 : ℚ) ≥ 0.4 ∧
      r.analysis.counterfeit_risk = "High" := by
  have hm : decide ((0.42 : ℚ) ≥ (some (0.6 : ℚ)).getD
      (⟨DEFAULT_CONFIG⟩ : ComparisonAnalyzer).config.DEFAULT_MATCH_THRESHOLD) = false :=
    decide_eq_false (by norm_num)
  refine ⟨_, by rw [compare_images_report _ _ _ _ _ _ rfl rfl], hm, by norm_num, ?_⟩
  show (ComparisonAnalyzer.generate_analysis_insights _ _ _).counterfeit_risk = "High"
  rw [hm]
  norm_num [ComparisonAnalyzer.generate_analysis_insights, DEFAULT_CONFIG]

/-- C7 (corrected): in every successful non-matching comparison the
counterfeit risk is "Medium" (with the needs-verification recommendation)
exactly when the unrounded score reaches the analyzer config's
`MEDIUM_CONFIDENCE_THRESHOLD` — 0.45 by default, not 0.4 — and "High" when the
score is below it. -/
theorem claim_C7_medium_risk_band :
    ∀ (analyzer : ComparisonAnalyzer) (fs : FileSystem) (p1 p2 : String)
      (t similarity : ℚ),
      fs.path_exists p1 = true → fs.path_exists p2 = true → similarity < t →
      ∃ r, (ComparisonAnalyzer.compare_images analyzer fs p1 p2 (some t) similarity).1 =
          CompareResult.report r ∧
        r.is_match = false ∧
        (analyzer.config.MEDIUM_CONFIDENCE_THRESHOLD ≤ similarity →
          r.analysis.counterfeit_risk = "Medium" ∧
          r.analysis.recommendation = "Some similarities found - Needs verification") ∧
        (similarity < analyzer.config.MEDIUM_CONFIDENCE_THRESHOLD →
          r.analysis.counterfeit_risk = "High") ∧
        DEFAULT_CONFIG.MEDIUM_CONFIDENCE_THRESHOLD = 0.45 := by
  intro analyzer fs p1 p2 t s h1 h2 hst
  have hm : decide (s ≥ (some t).getD analyzer.config.DEFAULT_MATCH_THRESHOLD) = false :=
    decide_eq_false (not_le.mpr hst)
  refine ⟨_, by rw [compare_images_report analyzer fs p1 p2 (some t) s h1 h2],
    hm, ?_, ?_, by norm_num [DEFAULT_CONFIG]⟩
  · intro hmed
    constructor
    · show (ComparisonAnalyzer.generate_analysis_insights _ _ _).counterfeit_risk = "Medium"
      rw [hm]
      simp [ComparisonAnalyzer.generate_analysis_insights, ge_iff_le, hmed]
    · show (ComparisonAnalyzer.generate_analysis_insights _ _ _).recommendation =
        "Some similarities found - Needs verification"
      rw [hm]
      simp [ComparisonAnalyzer.generate_analysis_insights, ge_iff_le, hmed]
  · intro hlt
    show (ComparisonAnalyzer.generate_analysis_insights _ _ _).counterfeit_risk = "High"
    rw [hm]
    simp [ComparisonAnalyzer.generate_analysis_insights, ge_iff_le, not_le.mpr hlt]

/-- C7 witness: with the default config, a non-matching comparison at score
0.5 (≥ 0.45) is "Medium" risk, and one at score 0.42 (< 0.45) is "High". -/
theorem claim_C7_medium_risk_band_witness :
    (∃ r, (ComparisonAnalyzer.compare_images ⟨DEFAULT_CONFIG⟩ ⟨fun _ => true⟩
        "a.jpg" "b.jpg" (some 0.6) 0.5).1 = CompareResult.report r ∧
      r.analysis.counterfeit_risk = "Medium") ∧
    (∃ r, (ComparisonAnalyzer.compare_images ⟨DEFAULT_CONFIG⟩ ⟨fun _ => true⟩
        "a.jpg" "b.jpg" (some 0.6) 0.42).1 = CompareResult.report r ∧
      r.analysis.counterfeit_risk = "High") := by
  constructor
  · obtain ⟨r, hr, _, hmed, _, _⟩ :=
      claim_C7_medium_risk_band ⟨DEFAULT_CONFIG⟩ ⟨fun _ => true⟩
        "a.jpg" "b.jpg" 0.6 0.5 rfl rfl (by norm_num)
    exact ⟨r, hr, (hmed (by norm_num [DEFAULT_CONFIG])).1⟩
  · obtain ⟨r, hr, _, _, hhigh, _⟩ :=
      claim_C7_medium_risk_band ⟨DEFAULT_CONFIG⟩ ⟨fun _ => true⟩
        "a.jpg" "b.jpg" 0.6 0.42 rfl rfl (by norm_num)
    exact ⟨r, hr, hhigh (by norm_num [DEFAULT_CONFIG])⟩

/-- C8 counterexample: an analyzer constructed with a validly-built config
whose `MEDIUM_CONFIDENCE_THRESHOLD` is overridden to 0.1 still labels a
score of 0.3 — which is ≥ the injected medium threshold and < the injected
high threshold — as confidence "Low", not "Medium": the confidence label
ignores the injected thresholds. -/
theorem claim_C8_counterexample :
    postInit { DEFAULT_CONFIG with MEDIUM_CONFIDENCE_THRESHOLD := 0.1 } =
      Except.ok { DEFAULT_CONFIG with MEDIUM_CONFIDENCE_THRESHOLD := 0.1 } ∧
    ({ DEFAULT_CONFIG with MEDIUM_CONFIDENCE_THRESHOLD := 0.1 } :
        SimilarityConfig).MEDIUM_CONFIDENCE_THRESHOLD ≤ 0.3 ∧
    (0.3 : ℚ) < ({ DEFAULT_CONFIG with MEDIUM_CONFIDENCE_THRESHOLD := 0.1 } :
        SimilarityConfig).HIGH_CONFIDENCE_THRESHOLD ∧
    ∃ r, (ComparisonAnalyzer.compare_images
        ⟨{ DEFAULT_CONFIG with MEDIUM_CONFIDENCE_THRESHOLD := 0.1 }⟩
        ⟨fun _ => true⟩ "a.jpg" "b.jpg" (some 0.6) 0.3).1 = CompareResult.report r ∧
      r.confidence = "Low" := by
  refine ⟨by norm_num [postInit, totalWeight, DEFAULT_CONFIG],
    by norm_num [DEFAULT_CONFIG], by norm_num [DEFAULT_CONFIG],
    _, by rw [compare_images_report _ _ _ _ _ _ rfl rfl], ?_⟩
  show get_confidence_level 0.3 = "Low"
  norm_num [get_confidence_level, DEFAULT_CONFIG]

/-- Every branch of `_generate_analysis_insights` fills `confidence` with the
module-level `get_confidence_level`. -/
lemma generate_analysis_insights_confidence (c : SimilarityConfig) (s : ℚ) (b : Bool) :
    (ComparisonAnalyzer.generate_analysis_insights c s b).confidence =
      get_confidence_level s := by
  simp only [ComparisonAnalyzer.generate_analysis_insights]
  split_ifs <;> rfl

/-- C8 (corrected): the confidence label in every successful report — both
the top-level `confidence` field and the one inside `analysis` — is computed
by the module-level `get_confidence_level` against `DEFAULT_CONFIG`'s
thresholds (High at ≥ 0.75, Medium at ≥ 0.45, else Low), for every analyzer,
regardless of the thresholds injected at construction. -/
theorem claim_C8_confidence_ignores_injected_config :
    ∀ (analyzer : ComparisonAnalyzer) (fs : FileSystem) (p1 p2 : String)
      (threshold : Option ℚ) (similarity : ℚ),
      fs.path_exists p1 = true → fs.path_exists p2 = true →
      ∃ r, (ComparisonAnalyzer.compare_images analyzer fs p1 p2 threshold similarity).1 =
          CompareResult.report r ∧
        r.confidence =
          (if similarity ≥ 0.75 then "High"
           else if similarity ≥ 0.45 then "Medium"
           else "Low") ∧
        r.analysis.confidence =
          (if similarity ≥ 0.75 then "High"
           else if similarity ≥ 0.45 then "Medium"
           else "Low") := by
  intro analyzer fs p1 p2 threshold s h1 h2
  refine ⟨_, by rw [compare_images_report analyzer fs p1 p2 threshold s h1 h2], ?_, ?_⟩
  · show get_confidence_level s = _
    rfl
  · show (ComparisonAnalyzer.generate_analysis_insights _ _ _).confidence = _
    rw [generate_analysis_insights_confidence]
    rfl

/-- C8 witness: the analyzer from the counterexample config (medium threshold
overridden to 0.1) labels score 0.3 "Low" in both confidence fields, per
`DEFAULT_CONFIG`'s 0.45 medium threshold. -/
theorem claim_C8_confidence_ignores_injected_config_witness :
    ∃ r, (ComparisonAnalyzer.compare_images
        ⟨{ DEFAULT_CONFIG with MEDIUM_CONFIDENCE_THRESHOLD := 0.1 }⟩
        ⟨fun _ => true⟩ "a.jpg" "b.jpg" (some 0.6) 0.3).1 = CompareResult.report r ∧
      r.confidence = "Low" ∧ r.analysis.confidence = "Low" := by
  obtain ⟨r, hr, hc, ha⟩ :=
    claim_C8_confidence_ignores_injected_config
      ⟨{ DEFAULT_CONFIG with MEDIUM_CONFIDENCE_THRESHOLD := 0.1 }⟩
      ⟨fun _ => true⟩ "a.jpg" "b.jpg" (some 0.6) 0.3 rfl rfl
  refine ⟨r, hr, ?_, ?_⟩
  · rw [hc]; norm_num
  · rw [ha]; norm_num

/-- With the six histograms `extract_features` produces on each side, the
color similarity is the clamped minimum of the two per-space best
correlations. -/
lemma color_similarity_eq (ch : Hist → Hist → ℚ) (f1 f2 : List Hist)
    (h1 : f1.length = 6) (h2 : f2.length = 6) :
    ColorExtractor.calculate_similarity ch f1 f2 =
      max 0.0 (min
        (maxL [ch (f1.getD 3 default) (f2.getD 3 default),
               ch (f1.getD 4 default) (f2.getD 4 default),
               ch (f1.getD 5 default) (f2.getD 5 default)])
        (maxL [ch (f1.getD 0 default) (f2.getD 0 default),
               ch (f1.getD 1 default) (f2.getD 1 default),
               ch (f1.getD 2 default) (f2.getD 2 default)])) := by
  have hr3 : List.range' 3 3 = [3, 4, 5] := rfl
  have hr : List.range 3 = [0, 1, 2] := rfl
  simp only [ColorExtractor.calculate_similarity, h1, h2, hr3, hr,
    List.map_cons, List.map_nil, List.filterMap_cons, List.filterMap_nil]
  norm_num
  split_ifs <;> simp_all

/-- C9 (confirmed): with both color spaces present, the color score is
`max(0, min(best HSV correlation, best BGR correlation))`; it is positive only
when both space-bests are positive, a negative combined correlation is clamped
to 0, and (given that Pearson correlations are at most 1) the result lies in
`[0, 1]`. -/
theorem claim_C9_color_min_of_both_spaces :
    ∀ (ch : Hist → Hist → ℚ) (f1 f2 : List Hist),
      f1.length = 6 → f2.length = 6 →
      (∀ a b, ch a b ≤ 1) →
      ∃ hsv_score bgr_score : ℚ,
        hsv_score = maxL [ch (f1.getD 3 default) (f2.getD 3 default),
                          ch (f1.getD 4 default) (f2.getD 4 default),
                          ch (f1.getD 5 default) (f2.getD 5 default)] ∧
        bgr_score = maxL [ch (f1.getD 0 default) (f2.getD 0 default),
                          ch (f1.getD 1 default) (f2.getD 1 default),
                          ch (f1.getD 2 default) (f2.getD 2 default)] ∧
        ColorExtractor.calculate_similarity ch f1 f2 =
          max 0.0 (min hsv_score bgr_score) ∧
        0 ≤ ColorExtractor.calculate_similarity ch f1 f2 ∧
        ColorExtractor.calculate_similarity ch f1 f2 ≤ 1 ∧
        (0 < ColorExtractor.calculate_similarity ch f1 f2 →
          0 < hsv_score ∧ 0 < bgr_score) ∧
        (min hsv_score bgr_score < 0 →
          ColorExtractor.calculate_similarity ch f1 f2 = 0) := by
  intro ch f1 f2 h1 h2 hb
  have heq := color_similarity_eq ch f1 f2 h1 h2
  refine ⟨_, _, rfl, rfl, heq, ?_, ?_, ?_, ?_⟩
  · rw [heq, show (0.0 : ℚ) = 0 by norm_num]; exact le_max_left _ _
  · rw [heq]
    refine max_le (by norm_num) ?_
    refine le_trans (min_le_right _ _) ?_
    refine maxL_le _ (by norm_num) ?_
    intro x hx
    simp only [List.mem_cons, List.not_mem_nil, or_false] at hx
    rcases hx with rfl | rfl | rfl <;> exact hb _ _
  · rw [heq, show (0.0 : ℚ) = 0 by norm_num]
    intro hpos
    rcases (@lt_max_iff ℚ _ 0 0 _).mp hpos with h | h
    · exact absurd h (lt_irrefl 0)
    · exact lt_min_iff.mp h
  · rw [heq, show (0.0 : ℚ) = 0 by norm_num]
    intro hneg
    exact max_eq_left (le_of_lt hneg)

/-- C9 witness: six histograms per side with a constant correlation oracle of
0.5 give a color score of exactly 0.5, inside `[0, 1]`. -/
theorem claim_C9_color_min_of_both_spaces_witness :
    ColorExtractor.calculate_similarity (fun _ _ => 0.5)
        [[], [], [], [], [], []] [[], [], [], [], [], []] = 0.5 ∧
    0 ≤ ColorExtractor.calculate_similarity (fun _ _ => 0.5)
        [[], [], [], [], [], []] [[], [], [], [], [], []] ∧
    ColorExtractor.calculate_similarity (fun _ _ => 0.5)
        [[], [], [], [], [], []] [[], [], [], [], [], []] ≤ 1 := by
  obtain ⟨hsv, bgr, hh, hbgr, heq, hge, hle, _, _⟩ :=
    claim_C9_color_min_of_both_spaces (fun _ _ => 0.5)
      [[], [], [], [], [], []] [[], [], [], [], [], []]
      rfl rfl (fun _ _ => by norm_num)
  refine ⟨?_, hge, hle⟩
  rw [heq, hh, hbgr]
  norm_num [maxL, min_self]

/-- The `max(similarities) if similarities else 0.0` pattern keeps a result in
`[0, 1]` when every collected similarity is. -/
lemma maxL_if_bounds (L : List ℚ) (hall : ∀ x ∈ L, 0 ≤ x ∧ x ≤ 1) :
    0 ≤ (if L ≠ [] then maxL L else 0.0) ∧ (if L ≠ [] then maxL L else 0.0) ≤ 1 := by
  split_ifs
  · exact ⟨maxL_nonneg _ (fun x hx => (hall x hx).1),
      maxL_le _ (by norm_num) (fun x hx => (hall x hx).2)⟩
  · norm_num

/-- The color score is always in `[0, 1]` when the correlation oracle is
bounded above by 1 (as a Pearson correlation is). -/
lemma color_similarity_bounds (ch : Hist → Hist → ℚ) (f1 f2 : List Hist)
    (hb : ∀ a b, ch a b ≤ 1) :
    0 ≤ ColorExtractor.calculate_similarity ch f1 f2 ∧
    ColorExtractor.calculate_similarity ch f1 f2 ≤ 1 := by
  have hbgr : ∀ x ∈ (List.range 3).map
      (fun i => ch (f1.getD i default) (f2.getD i default)), x ≤ 1 := by
    intro x hx
    obtain ⟨i, _, rfl⟩ := List.mem_map.mp hx
    exact hb _ _
  have hhsv : ∀ x ∈ (List.range' 3 3).filterMap
      (fun i => if i < f1.length ∧ i < f2.length then
        some (ch (f1.getD i default) (f2.getD i default)) else none), x ≤ 1 := by
    intro x hx
    obtain ⟨i, _, hsome⟩ := List.mem_filterMap.mp hx
    by_cases hc : i < f1.length ∧ i < f2.length
    · rw [if_pos hc] at hsome
      cases hsome
      exact hb _ _
    · rw [if_neg hc] at hsome
      cases hsome
  simp only [ColorExtractor.calculate_similarity,
    show (0.0 : ℚ) = 0 by norm_num]
  split_ifs with h g1 g2 g3
  · norm_num
  · exact ⟨le_max_left _ _, max_le (by norm_num)
      (le_trans (min_le_right _ _) (maxL_le _ (by norm_num) hbgr))⟩
  · exact ⟨le_max_left _ _, max_le (by norm_num) (maxL_le _ (by norm_num) hhsv)⟩
  · exact ⟨le_max_left _ _, max_le (by norm_num) (maxL_le _ (by norm_num) hbgr)⟩
  · constructor
    · exact le_max_left _ _
    · exact max_le (by norm_num) (by norm_num)

/-- The SIFT score is always in `[0, 1]` when the distance oracle is
nonnegative (a Euclidean norm) and the maximum-distance normaliser is
nonnegative. -/
lemma sift_similarity_bounds (c : SimilarityConfig) (kp1 kp2 : Nat)
    (des1 des2 : Option (List (List ℚ))) (fm bm : Option (List (List ℚ)))
    (dist : List ℚ → List ℚ → ℚ) (mpd : ℚ)
    (hd : ∀ v1 v2, 0 ≤ dist v1 v2) (hm : 0 ≤ mpd) :
    0 ≤ SIFTExtractor.calculate_similarity c kp1 kp2 des1 des2 fm bm dist mpd ∧
    SIFTExtractor.calculate_similarity c kp1 kp2 des1 des2 fm bm dist mpd ≤ 1 := by
  cases des1 with
  | none => norm_num [SIFTExtractor.calculate_similarity]
  | some d1 =>
    cases des2 with
    | none => norm_num [SIFTExtractor.calculate_similarity]
    | some d2 =>
      simp only [SIFTExtractor.calculate_similarity]
      by_cases hlen : d1.length < 2 ∨ d2.length < 2
      · rw [if_pos hlen]
        norm_num
      · rw [if_neg hlen]
        refine maxL_if_bounds _ ?_
        intro x hx
        rcases List.mem_append.mp hx with hx12 | hx3
        · have hstrat : ∀ (o : Option (List (List ℚ))) (r : ℚ),
              x ∈ (match o with
                   | some knn_matches =>
                       if 0 < (applyLoweRatioTest knn_matches r).length then
                         [min 1.0 (((applyLoweRatioTest knn_matches r).length : ℚ) /
                           (Nat.min kp1 kp2 : ℚ))]
                       else []
                   | none => ([] : List ℚ)) →
              0 ≤ x ∧ x ≤ 1 := by
            intro o r ho
            cases o with
            | none => simp at ho
            | some ms =>
                have ho' : x ∈ (if 0 < (applyLoweRatioTest ms r).length then
                    [min 1.0 (((applyLoweRatioTest ms r).length : ℚ) /
                      (Nat.min kp1 kp2 : ℚ))]
                    else ([] : List ℚ)) := ho
                by_cases hc : 0 < (applyLoweRatioTest ms r).length
                · rw [if_pos hc] at ho'
                  simp only [List.mem_singleton] at ho'
                  subst ho'
                  constructor
                  · exact le_min (by norm_num) (by positivity)
                  · exact le_trans (min_le_left _ _) (by norm_num)
                · rw [if_neg hc] at ho'
                  simp at ho'
          rcases List.mem_append.mp hx12 with hx1 | hx2
          · exact hstrat _ _ hx1
          · exact hstrat _ _ hx2
        · split at hx3
          · simp only [List.mem_singleton] at hx3
            subst hx3
            have havg : 0 ≤ (d1.map fun v1 => minL (d2.map fun v2 => dist v1 v2)).sum /
                (((d1.map fun v1 => minL (d2.map fun v2 => dist v1 v2)).length : ℚ)) := by
              apply div_nonneg
              · apply List.sum_nonneg
                intro y hy
                obtain ⟨v1, _, rfl⟩ := List.mem_map.mp hy
                apply minL_nonneg
                intro z hz
                obtain ⟨v2, _, rfl⟩ := List.mem_map.mp hz
                exact hd _ _
              · positivity
            have hq : 0 ≤ (d1.map fun v1 => minL (d2.map fun v2 => dist v1 v2)).sum /
                (((d1.map fun v1 => minL (d2.map fun v2 => dist v1 v2)).length : ℚ)) / mpd :=
              div_nonneg havg hm
            constructor
            · rw [show (0.0 : ℚ) = 0 by norm_num]
              exact le_max_left _ _
            · refine max_le (by norm_num) ?_
              have h10 : (1.0 : ℚ) = 1 := by norm_num
              rw [h10]
              linarith
          · simp at hx3

/-- The SSIM score is always in `[0, 1]` when the normalized cross-correlation
oracle is at most 1. -/
lemma ssim_similarity_bounds (corr : Option ℚ) (h : ∀ x, corr = some x → x ≤ 1) :
    0 ≤ SSIMExtractor.calculate_similarity corr ∧
    SSIMExtractor.calculate_similarity corr ≤ 1 := by
  cases corr with
  | none => norm_num [SSIMExtractor.calculate_similarity]
  | some x =>
      simp only [SSIMExtractor.calculate_similarity]
      constructor
      · rw [show (0.0 : ℚ) = 0 by norm_num]
        exact le_max_left _ _
      · exact max_le (by norm_num) (h x rfl)

/-- The edge score is always in `[0, 1]` when the two correlation oracles are
at most 1 and the edge densities are pixel fractions in `[0, 1]`. -/
lemma edge_similarity_bounds (tm hist d1 d2 : Option ℚ)
    (htm : ∀ x, tm = some x → x ≤ 1) (hh : ∀ x, hist = some x → x ≤ 1)
    (hd1 : ∀ x, d1 = some x → 0 ≤ x ∧ x ≤ 1)
    (hd2 : ∀ x, d2 = some x → 0 ≤ x ∧ x ≤ 1) :
    0 ≤ EdgeExtractor.calculate_similarity tm hist d1 d2 ∧
    EdgeExtractor.calculate_similarity tm hist d1 d2 ≤ 1 := by
  simp only [EdgeExtractor.calculate_similarity]
  refine maxL_if_bounds _ ?_
  intro x hx
  rcases List.mem_append.mp hx with hx12 | hx3
  · have hcorr : ∀ (o : Option ℚ), (∀ y, o = some y → y ≤ 1) →
        x ∈ (match o with
             | some correlation => [max 0.0 correlation]
             | none => ([] : List ℚ)) →
        0 ≤ x ∧ x ≤ 1 := by
      intro o hb ho
      cases o with
      | none => simp at ho
      | some y =>
          simp only [List.mem_singleton] at ho
          subst ho
          constructor
          · rw [show (0.0 : ℚ) = 0 by norm_num]
            exact le_max_left _ _
          · exact max_le (by norm_num) (hb y rfl)
    rcases List.mem_append.mp hx12 with hx1 | hx2
    · exact hcorr _ htm hx1
    · exact hcorr _ hh hx2
  · cases d1 with
    | none => simp at hx3
    | some a =>
        cases d2 with
        | none => simp at hx3
        | some b =>
            simp only [List.mem_singleton] at hx3
            subst hx3
            constructor
            · rw [show (0.0 : ℚ) = 0 by norm_num]
              exact le_max_left _ _
            · refine max_le (by norm_num) ?_
              have := abs_nonneg (a - b)
              have h10 : (1.0 : ℚ) = 1 := by norm_num
              rw [h10]
              linarith

/-- The shape score is always in `[0, 1]` when the Hu-moment distance oracle
is nonnegative. -/
lemma shape_similarity_bounds (f1 f2 : List ℚ) (d : ℚ) (hd : 0 ≤ d) :
    0 ≤ ShapeExtractor.calculate_similarity f1 f2 d ∧
    ShapeExtractor.calculate_similarity f1 f2 d ≤ 1 := by
  simp only [ShapeExtractor.calculate_similarity]
  split_ifs
  · norm_num
  · constructor
    · exact le_min (by norm_num) (div_nonneg (by norm_num) (by linarith))
    · exact le_trans (min_le_left _ _) (by norm_num)

/-- C1 (confirmed): for every validly constructed config and every extraction
environment whose numeric kernels have their guaranteed ranges, the aggregate
score of `calculate_similarity` lies in `[0, 1]` and each of the five
per-metric scores of `_calculate_all_similarities` lies in `[0, 1]`; a failed
image load yields aggregate 0.0, and a failing or degenerate extractor
(missing SIFT descriptors, a raising SSIM kernel, an empty Hu-moment vector)
contributes exactly 0.0 instead of propagating an error. -/
theorem claim_C1_boundedness :
    ∀ (c : SimilarityConfig) (e : MetricEnv) (loaded : Option MetricEnv),
      postInit c = Except.ok c → e.WellFormed →
      (0 ≤ ImageSimilarityCalculator.calculate_similarity c loaded ∧
        ImageSimilarityCalculator.calculate_similarity c loaded ≤ 1) ∧
      (∀ p ∈ calculate_all_similarities c e, 0 ≤ p.2.1 ∧ p.2.1 ≤ 1) ∧
      ImageSimilarityCalculator.calculate_similarity c none = 0 ∧
      ((e.sift_des1 = none ∨ e.sift_des2 = none) →
        SIFTExtractor.calculate_similarity c e.sift_kp1 e.sift_kp2 e.sift_des1
          e.sift_des2 e.flann_matches e.bf_matches e.sift_dist
          e.sift_max_possible_distance = 0) ∧
      (e.ssim_correlation = none →
        SSIMExtractor.calculate_similarity e.ssim_correlation = 0) ∧
      (e.shape_features1 = [] →
        ShapeExtractor.calculate_similarity e.shape_features1 e.shape_features2
          e.shape_distance = 0) := by
  intro c e loaded _ hwf
  obtain ⟨hch, hdist, hmpd, hssim, htm, hhist, hd1, hd2, hshape⟩ := hwf
  refine ⟨?_, ?_, ?_, ?_, ?_, ?_⟩
  · cases loaded with
    | none => norm_num [ImageSimilarityCalculator.calculate_similarity]
    | some env =>
        simp only [ImageSimilarityCalculator.calculate_similarity]
        constructor
        · refine le_min (by norm_num) ?_
          rw [show (0.0 : ℚ) = 0 by norm_num]
          exact le_max_left _ _
        · exact le_trans (min_le_left _ _) (by norm_num)
  · intro p hp
    simp only [calculate_all_similarities, List.mem_cons, List.not_mem_nil,
      or_false] at hp
    rcases hp with rfl | rfl | rfl | rfl | rfl
    · exact color_similarity_bounds _ _ _ hch
    · exact sift_similarity_bounds _ _ _ _ _ _ _ _ _ hdist hmpd
    · exact ssim_similarity_bounds _ hssim
    · exact edge_similarity_bounds _ _ _ _ htm hhist hd1 hd2
    · exact shape_similarity_bounds _ _ _ hshape
  · norm_num [ImageSimilarityCalculator.calculate_similarity]
  · intro hdeg
    rcases hdeg with h | h
    · rw [h]
      cases e.sift_des2 <;> norm_num [SIFTExtractor.calculate_similarity]
    · rw [h]
      cases e.sift_des1 <;> norm_num [SIFTExtractor.calculate_similarity]
  · intro h
    rw [h]
    norm_num [SSIMExtractor.calculate_similarity]
  · intro h
    rw [h]
    norm_num [ShapeExtractor.calculate_similarity]

/-- C1 witness: the default config with a fully degenerate environment gives
an aggregate in `[0, 1]` and all per-metric scores in `[0, 1]`. -/
theorem claim_C1_boundedness_witness :
    (0 ≤ ImageSimilarityCalculator.calculate_similarity DEFAULT_CONFIG
        (some trivialMetricEnv) ∧
      ImageSimilarityCalculator.calculate_similarity DEFAULT_CONFIG
        (some trivialMetricEnv) ≤ 1) ∧
    (∀ p ∈ calculate_all_similarities DEFAULT_CONFIG trivialMetricEnv,
      0 ≤ p.2.1 ∧ p.2.1 ≤ 1) ∧
    ImageSimilarityCalculator.calculate_similarity DEFAULT_CONFIG none = 0 := by
  have hwf : trivialMetricEnv.WellFormed := by
    refine ⟨fun _ _ => by norm_num [trivialMetricEnv],
      fun _ _ => le_refl 0, le_refl 0, ?_, ?_, ?_, ?_, ?_, le_refl 0⟩ <;>
      exact fun x hx => Option.noConfusion hx
  obtain ⟨hagg, hper, hnone, _, _, _⟩ :=
    claim_C1_boundedness DEFAULT_CONFIG trivialMetricEnv (some trivialMetricEnv)
      (by norm_num [postInit, totalWeight, DEFAULT_CONFIG]) hwf
  exact ⟨hagg, hper, hnone⟩

/-- One `batch_compare` iteration appends exactly one indexed entry and bumps
exactly one of the three counters, leaving `total_comparisons` alone. -/
lemma batchStep_spec (analyzer : ComparisonAnalyzer) (fs : FileSystem)
    (threshold : Option ℚ) (scores : String → String → ℚ)
    (acc : BatchResults) (ip : Nat × String × String) :
    (batchStep analyzer fs threshold scores acc ip).comparisons =
      acc.comparisons ++ [(ip.1,
        (ComparisonAnalyzer.compare_images analyzer fs ip.2.1 ip.2.2 threshold
          (scores ip.2.1 ip.2.2)).1)] ∧
    (batchStep analyzer fs threshold scores acc ip).«matches» +
        (batchStep analyzer fs threshold scores acc ip).no_matches +
        (batchStep analyzer fs threshold scores acc ip).errors =
      acc.«matches» + acc.no_matches + acc.errors + 1 ∧
    (batchStep analyzer fs threshold scores acc ip).total_comparisons =
      acc.total_comparisons := by
  simp only [batchStep]
  split
  · refine ⟨rfl, ?_, rfl⟩
    show acc.«matches» + acc.no_matches + (acc.errors + 1) =
      acc.«matches» + acc.no_matches + acc.errors + 1
    omega
  · split_ifs
    · refine ⟨rfl, ?_, rfl⟩
      show acc.«matches» + 1 + acc.no_matches + acc.errors =
        acc.«matches» + acc.no_matches + acc.errors + 1
      omega
    · refine ⟨rfl, ?_, rfl⟩
      show acc.«matches» + (acc.no_matches + 1) + acc.errors =
        acc.«matches» + acc.no_matches + acc.errors + 1
      omega

/-- Fold invariant for the `batch_compare` loop over the enumerated pairs. -/
lemma batch_foldl_spec (analyzer : ComparisonAnalyzer) (fs : FileSystem)
    (threshold : Option ℚ) (scores : String → String → ℚ) :
    ∀ (l : List (Nat × String × String)) (acc : BatchResults),
      (l.foldl (batchStep analyzer fs threshold scores) acc).comparisons =
        acc.comparisons ++ l.map (fun ip => (ip.1,
          (ComparisonAnalyzer.compare_images analyzer fs ip.2.1 ip.2.2 threshold
            (scores ip.2.1 ip.2.2)).1)) ∧
      (l.foldl (batchStep analyzer fs threshold scores) acc).«matches» +
          (l.foldl (batchStep analyzer fs threshold scores) acc).no_matches +
          (l.foldl (batchStep analyzer fs threshold scores) acc).errors =
        acc.«matches» + acc.no_matches + acc.errors + l.length ∧
      (l.foldl (batchStep analyzer fs threshold scores) acc).total_comparisons =
        acc.total_comparisons := by
  intro l
  induction l with
  | nil => intro acc; simp
  | cons hd tl ih =>
      intro acc
      obtain ⟨hstep1, hstep2, hstep3⟩ :=
        batchStep_spec analyzer fs threshold scores acc hd
      obtain ⟨ih1, ih2, ih3⟩ :=
        ih (batchStep analyzer fs threshold scores acc hd)
      refine ⟨?_, ?_, ?_⟩
      · rw [List.foldl_cons, ih1, hstep1, List.append_assoc]
        simp
      · rw [List.foldl_cons, ih2, hstep2, List.length_cons]
        omega
      · rw [List.foldl_cons, ih3, hstep3]

/-- C6 (confirmed): `batch_compare` over `n` pairs reports
`total_comparisons = n`, produces exactly `n` comparison entries — the `k`-th
entry carrying pair index `k` and the independently computed result of pair
`k` (an error entry for a failing pair, a full report otherwise) — and its
three counters partition the pairs: `matches + no_matches + errors = n`. -/
theorem claim_C6_batch_independence :
    ∀ (analyzer : ComparisonAnalyzer) (fs : FileSystem)
      (image_pairs : List (String × String)) (threshold : Option ℚ)
      (scores : String → String → ℚ),
      (ComparisonAnalyzer.batch_compare analyzer fs image_pairs threshold
        scores).total_comparisons = image_pairs.length ∧
      (ComparisonAnalyzer.batch_compare analyzer fs image_pairs threshold
        scores).comparisons.length = image_pairs.length ∧
      (ComparisonAnalyzer.batch_compare analyzer fs image_pairs threshold
          scores).«matches» +
        (ComparisonAnalyzer.batch_compare analyzer fs image_pairs threshold
          scores).no_matches +
        (ComparisonAnalyzer.batch_compare analyzer fs image_pairs threshold
          scores).errors = image_pairs.length ∧
      (ComparisonAnalyzer.batch_compare analyzer fs image_pairs threshold
          scores).comparisons =
        image_pairs.enum.map (fun ip => (ip.1,
          (ComparisonAnalyzer.compare_images analyzer fs ip.2.1 ip.2.2 threshold
            (scores ip.2.1 ip.2.2)).1)) ∧
      (ComparisonAnalyzer.batch_compare analyzer fs image_pairs threshold
          scores).comparisons.map Prod.fst = List.range image_pairs.length := by
  intro analyzer fs image_pairs threshold scores
  obtain ⟨h1, h2, h3⟩ := batch_foldl_spec analyzer fs threshold scores
    image_pairs.enum
    { total_comparisons := image_pairs.length,
      «matches» := 0, no_matches := 0, errors := 0, comparisons := [] }
  have hcomp :
      (ComparisonAnalyzer.batch_compare analyzer fs image_pairs threshold
        scores).comparisons =
      image_pairs.enum.map (fun ip => (ip.1,
        (ComparisonAnalyzer.compare_images analyzer fs ip.2.1 ip.2.2 threshold
          (scores ip.2.1 ip.2.2)).1)) := by
    rw [ComparisonAnalyzer.batch_compare, h1]
    simp
  refine ⟨?_, ?_, ?_, hcomp, ?_⟩
  · rw [ComparisonAnalyzer.batch_compare, h3]
  · rw [hcomp, List.length_map, List.enum_length]
  · rw [ComparisonAnalyzer.batch_compare, h2]
    simp [List.enum_length]
  · rw [hcomp, List.map_map]
    have : (Prod.fst ∘ fun ip : Nat × String × String => (ip.1,
        (ComparisonAnalyzer.compare_images analyzer fs ip.2.1 ip.2.2 threshold
          (scores ip.2.1 ip.2.2)).1)) = Prod.fst := by
      funext ip
      rfl
    rw [this, List.enum_map_fst]
